import Mathlib

/-!
Verification of the vinted scraping pipeline against its specification.

The definitions below are shallow embeddings of the Python source:

* app/utils/retry.py            -> retryGo, retry_with_backoff
* app/ingest.py                 -> insert_price_if_changed, upsert_listing,
                                   get_or_create_condition_option, crawlLoop,
                                   scrape_locale_setup_outcome
* app/utils/details.py          -> non_empty_string, has_photos,
                                   compute_details_scraped_flag
* app/scrapy_worker/pipelines.py-> convert_photos, persist_detail_item
* app/verify_status.py          -> check_item_status, apply_status_update

Machine integers are modelled as Nat/Int (no overflow is relevant anywhere in
the embedded code paths), timestamps as Int seconds, and fallible Python code
as Except.
-/

/-! ### Retry policy (app/utils/retry.py)

The wrapper produced by retry_with_backoff runs
  for i in range(retries):
      try: return await func(...)
      except: if i == retries - 1: raise
              sleep(delay); delay *= backoff_factor
falling off the loop (returning None) when `range(retries)` is empty.

The fallible operation is modelled as a function from the 0-based attempt
index to `Except`; the trace records the outcome, how many times the
operation was invoked, and the list of sleep durations in order. -/

/-- Outcome of a retry-wrapped call: a returned value, a re-raised
exception, or the implicit `None` returned when the loop body never runs. -/
inductive RetryResult (α ε : Type) where
  | ok (a : α)
  | raised (e : ε)
  | noAttempt
  deriving DecidableEq

/-- Execution trace of the retry wrapper: final outcome, number of
invocations of the wrapped operation, and the sleeps performed (in order). -/
structure RetryTrace (α ε : Type) where
  result : RetryResult α ε
  calls : Nat
  sleeps : List Nat
  deriving DecidableEq

/-- Loop body of the wrapper in app/utils/retry.py.  `i` is the current
0-based attempt index, the second argument is the number of loop iterations
still available (so the Python test `i == retries - 1` is exactly the case
where it equals 1), and the last argument is the current delay. -/
def retryGo {α ε : Type} (op : Nat → Except ε α) (backoff_factor : Nat) :
    Nat → Nat → Nat → RetryTrace α ε
  | _, 0, _ => ⟨RetryResult.noAttempt, 0, []⟩
  | i, left + 1, delay =>
    match op i with
    | Except.ok a => ⟨RetryResult.ok a, 1, []⟩
    | Except.error e =>
      match left with
      | 0 => ⟨RetryResult.raised e, 1, []⟩
      | l + 1 =>
        let t := retryGo op backoff_factor (i + 1) (l + 1) (delay * backoff_factor)
        ⟨t.result, t.calls + 1, delay :: t.sleeps⟩

/-- retry_with_backoff from app/utils/retry.py.  `retries` is an Int because
the Python parameter may be non-positive, in which case `range(retries)` is
empty and the wrapper returns None without invoking the operation. -/
def retry_with_backoff {α ε : Type} (retries : Int) (initial_delay backoff_factor : Nat)
    (op : Nat → Except ε α) : RetryTrace α ε :=
  retryGo op backoff_factor 0 retries.toNat initial_delay

/-! ### Price history dedup rule (app/ingest.py, insert_price_if_changed)

The source first queries the most recent PriceHistory row of the listing
(ORDER BY observed_at DESC LIMIT 1); `last_record` below models the result
of that query as an optional (price_cents, observed_at) pair.  Timestamps
are Int seconds, so `time_diff.total_seconds() > 86400` becomes
`now - last_observed > 86400`. -/

/-- A PriceHistory row as appended by insert_price_if_changed. -/
structure PriceObservation where
  observed_at : Int
  price_cents : Int
  deriving DecidableEq

/-- Decision logic of insert_price_if_changed: insert when no prior row
exists, when the price changed (Python `last_price != new_price_cents`,
which is also true when the new price is None), or when the last row is
older than 24 hours. -/
def price_should_insert (last_record : Option (Int × Int)) (now : Int)
    (new_price_cents : Option Int) : Bool :=
  match last_record with
  | none => true
  | some (last_price, last_observed) =>
    if some last_price ≠ new_price_cents then true
    else decide (now - last_observed > 86400)

/-- insert_price_if_changed from app/ingest.py: returns the row handed to
`session.add`, if any (the source adds at most one row per call, and only
when the decision holds and the new price is not None). -/
def insert_price_if_changed (last_record : Option (Int × Int)) (now : Int)
    (new_price_cents : Option Int) : Option PriceObservation :=
  if price_should_insert last_record now new_price_cents then
    match new_price_cents with
    | some p => some ⟨now, p⟩
    | none => none
  else none

/-! ### Catalog page loop (app/ingest.py, _scrape_and_store_locale)

The main scrape loop runs `for page in range(1, max_pages + 1)`.  A page
whose fetch returns no items (or fails after retries, leaving items None)
breaks the loop.  Otherwise the page is processed; if it created zero new
listings a consecutive-empty counter is incremented and the loop stops once
it reaches max_consecutive_empty = 3, else the counter resets to 0.

`items page` abstracts the number of items the catalog returns for a page
(0 standing for an empty/failed fetch) and `newc page` the number of new
listings created while processing it.  The function returns the list of
pages actually requested, in order. -/

/-- Page loop of _scrape_and_store_locale.  Arguments: iterations left
(initially max_pages), current page (initially 1), and the
consecutive-empty-page counter (initially 0). -/
def crawlLoop (items newc : Nat → Nat) : Nat → Nat → Nat → List Nat
  | 0, _, _ => []
  | left + 1, page, consec =>
    page ::
      (if items page = 0 then []
       else if newc page = 0 then
         (if 3 ≤ consec + 1 then []
          else crawlLoop items newc left (page + 1) (consec + 1))
       else crawlLoop items newc left (page + 1) 0)

/-- Pages requested by one run of the scrape loop. -/
def requested_pages (items newc : Nat → Nat) (max_pages : Nat) : List Nat :=
  crawlLoop items newc max_pages 1 0

/-! ### Browser initialization failure (app/ingest.py, _scrape_and_store_locale)

When detail fetching is enabled with the browser strategy, the source does
    try: driver = await init_driver()
    except Exception as e: logger.error(...); return
so a browser-init failure makes the coroutine return early; no exception
propagates to the caller.  The outcome type distinguishes raising from the
silent early return. -/

/-- Control-flow outcome of one _scrape_and_store_locale call with respect
to browser setup. -/
inductive LocaleRunOutcome where
  | completedRun
  | abortedEarlyReturn
  | raisedToCaller
  deriving DecidableEq

/-- Setup control flow of _scrape_and_store_locale: the init_driver call is
attempted only when fetch_details is set and the strategy is the browser
one, and its failure is caught, logged and turned into a plain return. -/
def scrape_locale_setup_outcome (fetch_details : Bool) (details_strategy : String)
    (browser_init_ok : Bool) : LocaleRunOutcome :=
  if fetch_details && details_strategy == "browser" && !browser_init_ok then
    LocaleRunOutcome.abortedEarlyReturn
  else
    LocaleRunOutcome.completedRun

/-! ### Listing upsert (app/ingest.py, upsert_listing)

upsert_listing first looks the listing up by vinted_id when the incoming
dict carries one, else by url, to compute the was-new flag; it then runs a
PostgreSQL INSERT ... ON CONFLICT (url) DO UPDATE.  Two points of the ORM
semantics matter and are modelled explicitly:

* the Listing table (app/db/models.py) has a unique constraint on url only
  (vinted_id is merely indexed), so the conflict key is the url;
* for columns absent from the data dict, SQLAlchemy renders the Python-side
  column default into the INSERT, so the EXCLUDED row carries the default,
  not NULL: is_sold defaults to False, is_visible to True, details_scraped
  to False.  `Option (Option Bool)` distinguishes an absent key (none) from
  an explicit None (some none) for is_sold.

Columns irrelevant to every claim (size, condition, language, currency,
source, seller fields, total_cents, category_id, platform_ids,
condition_option_id, source_option_id, timestamps) are omitted from the
upsert model; the conflict clause overwrites each of them with the
EXCLUDED value just like the plain fields modelled here.  seller_name is
kept on the row type because the detail pipeline writes it. -/

/-- The subset of the data dict handed to upsert_listing that the claims
depend on.  `none` in an Option field means the key is absent from the
dict (equivalently NULL for the nullable columns that have no default). -/
structure UpsertData where
  url : String
  vinted_id : Option Int
  title : Option String
  original_title : Option String
  description : Option String
  brand : Option String
  location : Option String
  shipping_cents : Option Int
  price_cents : Option Int
  photo : Option String
  photos : Option (List String)
  is_visible : Option Bool
  is_sold : Option (Option Bool)
  details_scraped : Option Bool
  deriving DecidableEq

/-- A Listing row (app/db/models.py), restricted to the modelled columns. -/
structure ListingRow where
  id : Nat
  url : String
  vinted_id : Option Int
  title : Option String
  original_title : Option String
  description : Option String
  brand : Option String
  location : Option String
  seller_name : Option String
  shipping_cents : Option Int
  price_cents : Option Int
  photo : Option String
  photos : Option (List String)
  is_active : Bool
  is_visible : Bool
  is_sold : Bool
  details_scraped : Bool
  deriving DecidableEq

/-- EXCLUDED value of is_sold: an absent key receives the rendered column
default False (not NULL); an explicit None stays NULL. -/
def excluded_is_sold (d : UpsertData) : Option Bool :=
  match d.is_sold with
  | none => some false
  | some v => v

/-- Conflict clause of upsert_listing (ON CONFLICT (url) DO UPDATE SET ...)
applied to the existing row `r`: mutable fields are overwritten with the
EXCLUDED values, original_title is preserved via coalesce-if-null,
is_active and is_visible are both set from EXCLUDED is_visible, and
is_sold becomes COALESCE(EXCLUDED.is_sold, listings.is_sold, false) — the
existing column is NOT NULL, so the third arm is unreachable. -/
def apply_conflict_update (r : ListingRow) (d : UpsertData) : ListingRow :=
  { r with
    title := d.title
    original_title := (match r.original_title with
      | some t => some t
      | none => d.title)
    description := d.description
    brand := d.brand
    location := d.location
    shipping_cents := d.shipping_cents
    price_cents := d.price_cents
    photo := d.photo
    photos := d.photos
    details_scraped := d.details_scraped.getD false
    is_active := d.is_visible.getD true
    is_visible := d.is_visible.getD true
    is_sold := (excluded_is_sold d).getD r.is_sold
    vinted_id := d.vinted_id }

/-- Row inserted when no url conflict exists; absent booleans receive
their column defaults (is_active/is_visible True, is_sold and
details_scraped False). -/
def insert_row (next_id : Nat) (d : UpsertData) : ListingRow :=
  { id := next_id
    url := d.url
    vinted_id := d.vinted_id
    title := d.title
    original_title := d.original_title
    description := d.description
    brand := d.brand
    location := d.location
    seller_name := none
    shipping_cents := d.shipping_cents
    price_cents := d.price_cents
    photo := d.photo
    photos := d.photos
    is_active := true
    is_visible := d.is_visible.getD true
    is_sold := (excluded_is_sold d).getD false
    details_scraped := d.details_scraped.getD false }

/-- upsert_listing from app/ingest.py: the was-new flag comes from a lookup
by vinted_id when present (else url), while the insert-or-update itself is
keyed by the url unique constraint.  Returns the updated table and the
flag. -/
def upsert_listing (db : List ListingRow) (next_id : Nat) (d : UpsertData) :
    List ListingRow × Bool :=
  let existing : Option ListingRow :=
    match d.vinted_id with
    | some v => db.find? (fun r => decide (r.vinted_id = some v))
    | none => db.find? (fun r => decide (r.url = d.url))
  let was_new := existing.isNone
  if db.any (fun r => decide (r.url = d.url)) then
    (db.map (fun r => if r.url = d.url then apply_conflict_update r d else r), was_new)
  else
    (db ++ [insert_row next_id d], was_new)

/-! ### Python string primitives

The Python str methods used by the embedded code (strip, lower,
replace(" ", "-")) are implemented here over the character list so that
every proof can evaluate them; the built-in String.trim / String.toLower
do the same thing but do not reduce inside the kernel. -/

/-- Python str.strip(): drop leading and trailing whitespace. -/
def str_strip (s : String) : String :=
  ⟨((s.data.dropWhile Char.isWhitespace).reverse.dropWhile Char.isWhitespace).reverse⟩

/-- Python str.lower() (ASCII case folding, which covers every label the
source handles). -/
def str_lower (s : String) : String :=
  ⟨s.data.map (fun c => if 65 ≤ c.toNat ∧ c.toNat ≤ 90 then Char.ofNat (c.toNat + 32) else c)⟩

/-- Python str.replace(" ", "-"): pattern and replacement are single
characters, so the replacement is characterwise. -/
def replace_spaces_with_dashes (s : String) : String :=
  ⟨s.data.map (fun c => if c = ' ' then '-' else c)⟩

/-! ### Detail completeness (app/utils/details.py) -/

/-- The _non_empty_string helper of app/utils/details.py (leading
underscore dropped): the value is a string whose strip() is non-empty. -/
def non_empty_string (value : Option String) : Bool :=
  match value with
  | some s => str_strip s != ""
  | none => false

/-- The _has_photos helper of app/utils/details.py: the value is a list
with some truthy element (photo URLs are strings, truthy = non-empty). -/
def has_photos (value : Option (List String)) : Bool :=
  match value with
  | some l => l.any (fun p => p != "")
  | none => false

/-- Python truthiness of an optional string (`if value:`), used by the
pipeline field loop; unlike non_empty_string it does not strip. -/
def truthy_string (value : Option String) : Bool :=
  match value with
  | some s => s != ""
  | none => false

/-- The mapping inspected by compute_details_scraped_flag. -/
structure DetailsPayload where
  shipping_cents : Option Int
  brand : Option String
  location : Option String
  description : Option String
  photos : Option (List String)
  deriving DecidableEq

/-- compute_details_scraped_flag from app/utils/details.py. -/
def compute_details_scraped_flag (data : DetailsPayload) : Bool :=
  data.shipping_cents.isSome &&
    non_empty_string data.brand &&
    non_empty_string data.location &&
    has_photos data.photos &&
    non_empty_string data.description

/-- The details_payload dict _persist_item builds from the listing's
current columns before recomputing the flag. -/
def payload_of (l : ListingRow) : DetailsPayload :=
  ⟨l.shipping_cents, l.brand, l.location, l.description, l.photos⟩

/-! ### Detail persistence pipeline (app/scrapy_worker/pipelines.py) -/

/-- A scraped detail item (listing already resolved; shipping_cents is an
Int when the int() conversion succeeds, None otherwise). -/
structure DetailItem where
  shipping_cents : Option Int
  brand : Option String
  location : Option String
  description : Option String
  seller_name : Option String
  photos : Option (List String)
  deriving DecidableEq

/-- _convert_photos from app/scrapy_worker/pipelines.py for a list input:
falsy input gives None, falsy entries are dropped, and an empty cleaned
list gives None. -/
def convert_photos (photos : Option (List String)) : Option (List String) :=
  match photos with
  | none => none
  | some l =>
    if l.isEmpty then none
    else
      let cleaned := l.filter (fun p => p != "")
      if cleaned.isEmpty then none else some cleaned

/-- Shipping update step of _persist_item: only a present (convertible)
shipping_cents overwrites the column. -/
def apply_shipping (l : ListingRow) (item : DetailItem) : ListingRow :=
  match item.shipping_cents with
  | some n => { l with shipping_cents := some n }
  | none => l

/-- DETAIL_FIELDS loop of _persist_item: brand, location, description and
seller_name overwrite the column only when truthy. -/
def apply_detail_fields (l : ListingRow) (item : DetailItem) : ListingRow :=
  let l1 := if truthy_string item.brand then { l with brand := item.brand } else l
  let l2 := if truthy_string item.location then { l1 with location := item.location } else l1
  let l3 := if truthy_string item.description then { l2 with description := item.description } else l2
  if truthy_string item.seller_name then { l3 with seller_name := item.seller_name } else l3

/-- Photo update step of _persist_item: a non-empty cleaned photo list is
stored, and the main photo is backfilled from its head when falsy. -/
def apply_photos (l : ListingRow) (item : DetailItem) : ListingRow :=
  match convert_photos item.photos with
  | some ps =>
    { l with
      photos := some ps
      photo := if truthy_string l.photo then l.photo else ps.head? }
  | none => l

/-- Core of DetailPersistencePipeline._persist_item once the listing is
found: apply the field updates, then recompute details_scraped from the
listing's resulting columns.  (When no field changed the source skips the
commit; the state below is the one produced whenever a commit happens.) -/
def persist_detail_item (l : ListingRow) (item : DetailItem) : ListingRow :=
  let l6 := apply_photos (apply_detail_fields (apply_shipping l item) item) item
  { l6 with details_scraped := compute_details_scraped_flag (payload_of l6) }

/-! ### Condition taxonomy get-or-create (app/ingest.py) -/

/-- A condition_options row: stable numeric ID, unique code, label. -/
structure ConditionOption where
  id : Nat
  code : String
  label : String
  deriving DecidableEq

/-- The condition_options table plus the autoincrement sequence. -/
structure ConditionTable where
  rows : List ConditionOption
  next_id : Nat
  deriving DecidableEq

/-- Database errors the get-or-create can raise: scalar_one_or_none on
more than one match, and the unique constraint on code at flush time. -/
inductive DbError where
  | multipleResultsFound
  | integrityError
  deriving DecidableEq

/-- Case-insensitive label match of the lookup
(func.lower(ConditionOption.label) == func.lower(condition_name)). -/
def label_matches (condition_name : String) (r : ConditionOption) : Bool :=
  str_lower r.label == str_lower condition_name

/-- Code generated for a newly created condition:
condition_name.lower().replace(" ", "-").strip(). -/
def code_of (condition_name : String) : String :=
  str_strip (replace_spaces_with_dashes (str_lower condition_name))

/-- get_or_create_condition_option from app/ingest.py.  A falsy name gives
None; otherwise the label is matched case-insensitively and a new row with
the next sequence ID is created when no match exists. -/
def get_or_create_condition_option (db : ConditionTable) (condition_name : String) :
    Except DbError (Option Nat × ConditionTable) :=
  if condition_name = "" then Except.ok (none, db)
  else
    match db.rows.filter (label_matches condition_name) with
    | [] =>
      if db.rows.any (fun r => r.code == code_of condition_name) then
        Except.error DbError.integrityError
      else
        Except.ok (some db.next_id,
          ⟨db.rows ++ [⟨db.next_id, code_of condition_name, condition_name⟩],
            db.next_id + 1⟩)
    | [r] => Except.ok (some r.id, db)
    | _ :: _ :: _ => Except.error DbError.multipleResultsFound

/-! ### Status verifier (app/verify_status.py) -/

/-- The three lifecycle flags of a tracked listing; also the shape of the
status dict check_item_status returns. -/
structure LifecycleFlags where
  is_visible : Bool
  is_active : Bool
  is_sold : Bool
  deriving DecidableEq

/-- Result of fetching a tracked listing's detail page: a 404, a page
whose text contains or lacks a locale sold keyword, or a failed request
(timeout, network error, or a non-2xx status raised by
raise_for_status). -/
inductive DetailFetchResult where
  | notFound404
  | page (sold_keyword_present : Bool)
  | fetchFailure
  deriving DecidableEq

/-- check_item_status from app/verify_status.py. -/
def check_item_status : DetailFetchResult → Option LifecycleFlags
  | DetailFetchResult.notFound404 => some ⟨false, false, false⟩
  | DetailFetchResult.page true => some ⟨false, false, true⟩
  | DetailFetchResult.page false => some ⟨true, true, false⟩
  | DetailFetchResult.fetchFailure => none

/-- verify_tracked_items applies a returned status dict to the listing via
update(Listing).values(**status); a None status skips the item. -/
def apply_status_update (l : LifecycleFlags) (s : Option LifecycleFlags) : LifecycleFlags :=
  match s with
  | none => l
  | some st => st

/-! ### Concrete fixtures used by the exhibits below -/

/-- A listing row previously marked sold. -/
def soldRowFixture : ListingRow :=
  { id := 1, url := "u", vinted_id := some 7, title := none, original_title := none,
    description := none, brand := none, location := none, seller_name := none,
    shipping_cents := none, price_cents := none, photo := none, photos := none,
    is_active := true, is_visible := true, is_sold := true, details_scraped := false }

/-- The shape of a catalog-path data dict (parse_catalog_item output):
no is_sold, is_visible or details_scraped keys. -/
def catalogDataFixture : UpsertData :=
  { url := "u", vinted_id := some 7, title := some "t", original_title := some "t",
    description := none, brand := none, location := none, shipping_cents := none,
    price_cents := some 1000, photo := none, photos := none,
    is_visible := none, is_sold := none, details_scraped := none }

/-- The same dict but with an explicit is_sold = None (NULL). -/
def catalogDataNullSoldFixture : UpsertData :=
  { catalogDataFixture with is_sold := some none }

/-- A catalog-path data dict carrying every detail field (a fetch_details
run that obtained shipping, brand, location, description and a photo). -/
def fullDetailDataFixture : UpsertData :=
  { url := "a", vinted_id := some 1, title := some "t", original_title := some "t",
    description := some "desc", brand := some "Sony", location := some "Bratislava",
    shipping_cents := some 300, price_cents := some 1000, photo := some "p1",
    photos := some ["p1"], is_visible := none, is_sold := none, details_scraped := none }

/-- Two catalog dicts for the same canonical item under different urls. -/
def vintedIdDataA : UpsertData := { catalogDataFixture with url := "a" }

/-- Second sighting of the canonical item of vintedIdDataA at another url. -/
def vintedIdDataB : UpsertData := { catalogDataFixture with url := "b" }

/-! ### Theorems -/

/-- Auxiliary: if the operation fails on attempts `i..i+K-1` and succeeds on
attempt `i+K`, with more than `K` loop iterations available, the loop returns
the success after `K+1` invocations, having slept
`delay * factor^0, ..., delay * factor^(K-1)`. -/
theorem retryGo_ok_eq {α ε : Type} (op : Nat → Except ε α) (f : Nat) :
    ∀ (K i left d : Nat) (a : α), K < left →
      (∀ j, j < K → ∃ e, op (i + j) = Except.error e) →
      op (i + K) = Except.ok a →
      retryGo op f i left d =
        ⟨RetryResult.ok a, K + 1, (List.range K).map (fun j => d * f ^ j)⟩ := by
  intro K
  induction K with
  | zero =>
    intro i left d a hlt hfail hok
    obtain ⟨l, rfl⟩ : ∃ l, left = l + 1 := ⟨left - 1, by omega⟩
    rw [Nat.add_zero] at hok
    simp [retryGo, hok]
  | succ K ih =>
    intro i left d a hlt hfail hok
    obtain ⟨l, rfl⟩ : ∃ l, left = l + 1 := ⟨left - 1, by omega⟩
    obtain ⟨l2, rfl⟩ : ∃ l2, l = l2 + 1 := ⟨l - 1, by omega⟩
    obtain ⟨e0, he0⟩ := hfail 0 (Nat.succ_pos K)
    rw [Nat.add_zero] at he0
    have hrec := ih (i + 1) (l2 + 1) (d * f) a (by omega)
      (fun j hj => by
        obtain ⟨e, he⟩ := hfail (j + 1) (by omega)
        exact ⟨e, by rw [show i + 1 + j = i + (j + 1) by omega]; exact he⟩)
      (by rw [show i + 1 + K = i + (K + 1) by omega]; exact hok)
    simp only [retryGo, he0, hrec]
    refine congrArg (RetryTrace.mk (RetryResult.ok a) (K + 1 + 1)) ?_
    rw [List.range_succ_eq_map, List.map_cons, List.map_map]
    refine congrArg₂ List.cons (by ring) ?_
    refine List.map_congr_left (fun j _ => ?_)
    simp only [Function.comp_apply, Nat.succ_eq_add_one]
    ring

/-- Auxiliary: if the operation fails on all `left ≥ 1` remaining attempts,
the loop re-raises the error of the final attempt after exactly `left`
invocations, having slept `left - 1` times. -/
theorem retryGo_raised_eq {α ε : Type} (op : Nat → Except ε α) (f : Nat) :
    ∀ (left i d : Nat), 1 ≤ left →
      (∀ j, j < left → ∃ e, op (i + j) = Except.error e) →
      ∃ e, op (i + (left - 1)) = Except.error e ∧
        retryGo op f i left d =
          ⟨RetryResult.raised e, left, (List.range (left - 1)).map (fun j => d * f ^ j)⟩ := by
  intro left
  induction left with
  | zero => intro i d h; omega
  | succ l ih =>
    intro i d _ hfail
    obtain ⟨e0, he0⟩ := hfail 0 (by omega)
    rw [Nat.add_zero] at he0
    cases l with
    | zero => exact ⟨e0, by simpa using he0, by simp [retryGo, he0]⟩
    | succ l2 =>
      obtain ⟨e, he, heq⟩ := ih (i + 1) (d * f) (by omega)
        (fun j hj => by
          obtain ⟨e1, he1⟩ := hfail (j + 1) (by omega)
          exact ⟨e1, by rw [show i + 1 + j = i + (j + 1) by omega]; exact he1⟩)
      refine ⟨e, ?_, ?_⟩
      · rw [show i + (l2 + 1 + 1 - 1) = i + 1 + (l2 + 1 - 1) by omega]
        exact he
      · simp only [retryGo, he0, heq]
        refine congrArg (RetryTrace.mk (RetryResult.raised e) (l2 + 1 + 1)) ?_
        rw [show l2 + 1 + 1 - 1 = (l2 + 1 - 1) + 1 by omega]
        rw [List.range_succ_eq_map, List.map_cons, List.map_map]
        refine congrArg₂ List.cons (by ring) ?_
        refine List.map_congr_left (fun j _ => ?_)
        simp only [Function.comp_apply, Nat.succ_eq_add_one]
        ring

/-- C7: for every retries >= 1, a retry_with_backoff-wrapped operation that
fails K times (K < retries) and then succeeds invokes the underlying
operation exactly K+1 times, sleeping initial_delay * backoff_factor^i
before attempt i+2 for i = 0..K-1; an operation that always fails is
invoked exactly retries times and the final exception is re-raised to the
caller. -/
theorem retry_with_backoff_spec {α ε : Type} (retries : Nat) (hr : 1 ≤ retries)
    (initial_delay backoff_factor : Nat) (op : Nat → Except ε α) :
    (∀ K a, K < retries →
        (∀ j, j < K → ∃ e, op j = Except.error e) →
        op K = Except.ok a →
        retry_with_backoff (retries : Int) initial_delay backoff_factor op =
          ⟨RetryResult.ok a, K + 1,
            (List.range K).map (fun j => initial_delay * backoff_factor ^ j)⟩) ∧
    ((∀ j, j < retries → ∃ e, op j = Except.error e) →
      ∃ e, op (retries - 1) = Except.error e ∧
        retry_with_backoff (retries : Int) initial_delay backoff_factor op =
          ⟨RetryResult.raised e, retries,
            (List.range (retries - 1)).map (fun j => initial_delay * backoff_factor ^ j)⟩) := by
  have htn : (retries : Int).toNat = retries := Int.toNat_natCast retries
  constructor
  · intro K a hK hfail hok
    rw [retry_with_backoff, htn]
    exact retryGo_ok_eq op backoff_factor K 0 retries initial_delay a hK
      (fun j hj => by simpa using hfail j hj) (by simpa using hok)
  · intro hfail
    obtain ⟨e, he, heq⟩ := retryGo_raised_eq op backoff_factor retries 0 initial_delay hr
      (fun j hj => by simpa using hfail j hj)
    exact ⟨e, by simpa using he, by rw [retry_with_backoff, htn]; exact heq⟩

/-- C7 witness: with retries = 3, initial delay 5 and factor 2, an operation
failing twice then succeeding is invoked 3 times with sleeps 5 and 10. -/
theorem retry_with_backoff_spec_witness :
    retry_with_backoff ((3 : Nat) : Int) 5 2
        (fun i => if i < 2 then (Except.error 0 : Except Nat Nat) else Except.ok 42) =
      ⟨RetryResult.ok 42, 2 + 1, (List.range 2).map (fun j => 5 * 2 ^ j)⟩ :=
  (retry_with_backoff_spec 3 (by omega) 5 2 _).1 2 42 (by omega)
    (fun j hj => ⟨0, by interval_cases j <;> rfl⟩) rfl

/-- C10: a retry_with_backoff-wrapped call with retries <= 0 returns None
without ever invoking the wrapped operation and without raising (the for
loop over range(retries) never runs). -/
theorem retry_with_backoff_nonpos {α ε : Type} (retries : Int) (h : retries ≤ 0)
    (initial_delay backoff_factor : Nat) (op : Nat → Except ε α) :
    retry_with_backoff retries initial_delay backoff_factor op =
      ⟨RetryResult.noAttempt, 0, []⟩ := by
  rw [retry_with_backoff, Int.toNat_of_nonpos h]
  rfl

/-- C10 witness: with retries = -1 the wrapper returns the no-attempt trace. -/
theorem retry_with_backoff_nonpos_witness :
    retry_with_backoff (-1) 7 2 (fun i => (Except.ok i : Except Nat Nat)) =
      ⟨RetryResult.noAttempt, 0, []⟩ :=
  retry_with_backoff_nonpos (-1) (by omega) 7 2 _

/-- C1: a new PriceHistory row is appended only if no prior row exists, the
observed price differs from the most recent row, or the most recent row is
older than 24 hours; and whenever an observed price differs from the most
recent row's price, exactly one new row is appended regardless of elapsed
time. -/
theorem insert_price_if_changed_spec (last_record : Option (Int × Int)) (now : Int)
    (p : Option Int) :
    ((insert_price_if_changed last_record now p).isSome →
      last_record = none ∨
      (∃ lp lt, last_record = some (lp, lt) ∧ p ≠ some lp) ∨
      (∃ lp lt, last_record = some (lp, lt) ∧ now - lt > 86400)) ∧
    (∀ lp lt q, last_record = some (lp, lt) → p = some q → q ≠ lp →
      insert_price_if_changed last_record now p = some ⟨now, q⟩) := by
  constructor
  · intro hs
    match last_record with
    | none => exact Or.inl rfl
    | some (lp, lt) =>
      by_cases hne : p = some lp
      · right; right
        refine ⟨lp, lt, rfl, ?_⟩
        by_contra hle
        simp only [insert_price_if_changed, price_should_insert] at hs
        simp [hne, hle] at hs
      · exact Or.inr (Or.inl ⟨lp, lt, rfl, hne⟩)
  · intro lp lt q hlast hp hq
    subst hlast; subst hp
    simp only [insert_price_if_changed, price_should_insert]
    simp [Ne.symm hq]

/-- C1 witness: a price change from 100 to 200 observed 5 seconds after the
last row still appends exactly one new row. -/
theorem insert_price_if_changed_spec_witness :
    insert_price_if_changed (some (100, 0)) 5 (some 200) = some ⟨5, 200⟩ :=
  (insert_price_if_changed_spec (some (100, 0)) 5 (some 200)).2 100 0 200 rfl rfl
    (by omega)

/-- Auxiliary: once the consecutive-empty counter is at least 2 and the
current page also yields zero new listings, the loop requests only the
current page. -/
theorem crawlLoop_mem_eq_of_consec_ge_two (items newc : Nat → Nat)
    (left page consec q : Nat) (hn : newc page = 0) (hc : 2 ≤ consec)
    (hq : q ∈ crawlLoop items newc left page consec) : q = page := by
  cases left with
  | zero => simp [crawlLoop] at hq
  | succ l =>
    simp only [crawlLoop, List.mem_cons] at hq
    rcases hq with rfl | h
    · rfl
    · by_cases h1 : items page = 0
      · simp [h1] at h
      · rw [if_neg h1, if_pos hn, if_pos (by omega : 3 ≤ consec + 1)] at h
        simp at h

/-- Auxiliary: with the counter at least 1 and the current and next pages
both yielding zero new listings, the loop never goes past the next page. -/
theorem crawlLoop_mem_le_of_consec_ge_one (items newc : Nat → Nat)
    (left page consec q : Nat) (hn0 : newc page = 0) (hn1 : newc (page + 1) = 0)
    (hc : 1 ≤ consec) (hq : q ∈ crawlLoop items newc left page consec) :
    q ≤ page + 1 := by
  cases left with
  | zero => simp [crawlLoop] at hq
  | succ l =>
    simp only [crawlLoop, List.mem_cons] at hq
    rcases hq with rfl | h
    · omega
    · by_cases h1 : items page = 0
      · simp [h1] at h
      · rw [if_neg h1, if_pos hn0] at h
        by_cases h3 : 3 ≤ consec + 1
        · rw [if_pos h3] at h
          simp at h
        · rw [if_neg h3] at h
          have := crawlLoop_mem_eq_of_consec_ge_two items newc l (page + 1) (consec + 1) q
            hn1 (by omega) h
          omega

/-- Auxiliary: if pages P, P+1 and P+2 all yield zero new listings, then a
loop currently at a page at most P never requests a page beyond P+2. -/
theorem crawlLoop_not_mem_past_saturation (items newc : Nat → Nat) (P q : Nat)
    (h0 : newc P = 0) (h1 : newc (P + 1) = 0) (h2 : newc (P + 2) = 0)
    (hq : P + 3 ≤ q) :
    ∀ left page consec, page ≤ P → q ∉ crawlLoop items newc left page consec := by
  intro left
  induction left with
  | zero => intro page consec _ h; simp [crawlLoop] at h
  | succ l ih =>
    intro page consec hpage hmem
    simp only [crawlLoop, List.mem_cons] at hmem
    rcases hmem with rfl | h
    · omega
    · by_cases hi : items page = 0
      · simp [hi] at h
      · rw [if_neg hi] at h
        by_cases hn : newc page = 0
        · rw [if_pos hn] at h
          by_cases hc : 3 ≤ consec + 1
          · rw [if_pos hc] at h
            simp at h
          · rw [if_neg hc] at h
            by_cases hpp : page = P
            · have := crawlLoop_mem_le_of_consec_ge_one items newc l (page + 1) (consec + 1) q
                (by rw [hpp]; exact h1) (by rw [hpp]; exact h2) (by omega) h
              omega
            · exact ih (page + 1) (consec + 1) (by omega) h
        · rw [if_neg hn] at h
          have hpp : page ≠ P := fun hh => hn (hh ▸ h0)
          exact ih (page + 1) 0 (by omega) h

/-- C6: in every crawl run, after 3 consecutive processed pages on which
zero new listings were created, the page loop stops and no later page is
ever requested, independent of max_pages. -/
theorem crawl_stops_after_three_empty_pages (items newc : Nat → Nat)
    (max_pages P q : Nat) (hP : 1 ≤ P) (h0 : newc P = 0) (h1 : newc (P + 1) = 0)
    (h2 : newc (P + 2) = 0) (hq : P + 3 ≤ q) :
    q ∉ requested_pages items newc max_pages :=
  crawlLoop_not_mem_past_saturation items newc P q h0 h1 h2 hq max_pages 1 0 hP

/-- C6 witness: a catalog where pages 4..6 return only already-known items
makes a max_pages = 10 crawl request exactly pages 1..6; page 7 is never
requested. -/
theorem crawl_stops_after_three_empty_pages_witness :
    requested_pages (fun _ => 24) (fun p => if p ≤ 3 then 1 else 0) 10 =
        [1, 2, 3, 4, 5, 6] ∧
      7 ∉ requested_pages (fun _ => 24) (fun p => if p ≤ 3 then 1 else 0) 10 :=
  ⟨by decide,
    crawl_stops_after_three_empty_pages _ _ 10 4 7 (by omega) (by decide) (by decide)
      (by decide) (by omega)⟩

/-- C9 counterexample: with detail fetching enabled under the browser
strategy and a failing browser initialization, _scrape_and_store_locale
does not raise to its caller (the exception is caught, logged and turned
into a plain return). -/
theorem browser_init_failure_not_raised :
    scrape_locale_setup_outcome true "browser" false ≠
      LocaleRunOutcome.raisedToCaller := by
  decide

/-- C9 amended: with detail fetching enabled under the browser strategy and
a failing browser initialization, _scrape_and_store_locale aborts with an
early return, surfacing no error. -/
theorem browser_init_failure_returns_early :
    scrape_locale_setup_outcome true "browser" false =
      LocaleRunOutcome.abortedEarlyReturn := by
  decide

/-- C2: code_bug exhibit.  The claim (and the comment inside
upsert_listing) says a previously sold listing stays sold when the
incoming data carries no sold evidence.  With an explicit is_sold = None
the COALESCE indeed keeps the existing True, but when the key is absent —
the only shape the catalog path ever produces — the rendered column
default False reaches EXCLUDED.is_sold and the update clears the flag. -/
theorem upsert_absent_is_sold_clears_flag :
    soldRowFixture.is_sold = true ∧
    (upsert_listing [soldRowFixture] 2 catalogDataNullSoldFixture).1.map
        ListingRow.is_sold = [true] ∧
    (upsert_listing [soldRowFixture] 2 catalogDataFixture).1.map
        ListingRow.is_sold = [false] := by
  decide

/-- C3 counterexample: a catalog upsert persisting a fully detailed item
produces a state in which every required detail field is present and
non-empty yet details_scraped is false, because the catalog path never
computes the flag and the EXCLUDED value is the column default False. -/
theorem catalog_upsert_breaks_details_flag :
    (upsert_listing [] 1 fullDetailDataFixture).1.map
        (fun r => (compute_details_scraped_flag (payload_of r), r.details_scraped)) =
      [(true, false)] := by
  decide

/-- C3 amended: every listing state produced by the backfill detail
pipeline satisfies the invariant: details_scraped is true iff shipping
cost, brand, location and description are present and non-empty and at
least one photo is present. -/
theorem persist_detail_item_flag_iff (l : ListingRow) (item : DetailItem) :
    (persist_detail_item l item).details_scraped = true ↔
      ((persist_detail_item l item).shipping_cents.isSome = true ∧
       non_empty_string (persist_detail_item l item).brand = true ∧
       non_empty_string (persist_detail_item l item).location = true ∧
       non_empty_string (persist_detail_item l item).description = true ∧
       has_photos (persist_detail_item l item).photos = true) := by
  simp only [persist_detail_item, compute_details_scraped_flag, payload_of,
    Bool.and_eq_true]
  tauto

/-- C4 counterexample: the same canonical item (vinted_id 7) upserted
under two different urls yields two Listing rows, and the second call
reports was_new = false even though it inserted a row. -/
theorem upsert_same_vinted_id_two_urls :
    (upsert_listing (upsert_listing [] 1 vintedIdDataA).1 2 vintedIdDataB).1.length = 2 ∧
    (upsert_listing (upsert_listing [] 1 vintedIdDataA).1 2 vintedIdDataB).2 = false := by
  decide

/-- C4 amended: when the two sightings agree on the conflict key (url) and
on vinted_id, upserting the same canonical item twice into an empty store
yields exactly one Listing row, with the was-new flag true on the first
call and false on the second. -/
theorem upsert_same_item_single_row (d1 d2 : UpsertData) (n1 n2 : Nat)
    (hurl : d2.url = d1.url) (hvid : d2.vinted_id = d1.vinted_id) :
    (upsert_listing [] n1 d1).1.length = 1 ∧
    (upsert_listing [] n1 d1).2 = true ∧
    (upsert_listing (upsert_listing [] n1 d1).1 n2 d2).1.length = 1 ∧
    (upsert_listing (upsert_listing [] n1 d1).1 n2 d2).2 = false := by
  have hfirst : upsert_listing [] n1 d1 = ([insert_row n1 d1], true) := by
    rcases hd : d1.vinted_id with _ | v <;> simp [upsert_listing, hd]
  have hu : (insert_row n1 d1).url = d2.url := by
    rw [hurl]; rfl
  refine ⟨by simp [hfirst], by simp [hfirst], ?_, ?_⟩
  · rw [hfirst]
    simp [upsert_listing, hu]
  · rw [hfirst]
    rcases hd2 : d2.vinted_id with _ | v
    · simp [upsert_listing, hd2, hu]
    · have hv : (insert_row n1 d1).vinted_id = some v := by
        show d1.vinted_id = some v
        rw [← hvid, hd2]
      simp [upsert_listing, hd2, hv, hu]

/-- C4 witness for the amended statement: re-scraping the very same
catalog dict leaves a single row and reports updated, not new. -/
theorem upsert_same_item_single_row_witness :
    (upsert_listing [] 1 catalogDataFixture).1.length = 1 ∧
    (upsert_listing [] 1 catalogDataFixture).2 = true ∧
    (upsert_listing (upsert_listing [] 1 catalogDataFixture).1 2 catalogDataFixture).1.length = 1 ∧
    (upsert_listing (upsert_listing [] 1 catalogDataFixture).1 2 catalogDataFixture).2 = false :=
  upsert_same_item_single_row catalogDataFixture catalogDataFixture 1 2 rfl rfl

/-- C5 amended: condition get-or-create is case-insensitive on the label:
for non-empty labels equal ignoring case, a successful call with the first
label followed by a call with the second returns the same canonical ID and
leaves the table unchanged (no second row). -/
theorem get_or_create_condition_case_insensitive (db : ConditionTable) (a b : String)
    (ha : a ≠ "") (hb : b ≠ "") (hab : str_lower a = str_lower b)
    (i : Option Nat) (db2 : ConditionTable)
    (h1 : get_or_create_condition_option db a = Except.ok (i, db2)) :
    get_or_create_condition_option db2 b = Except.ok (i, db2) := by
  have hm : ∀ rows : List ConditionOption,
      rows.filter (label_matches b) = rows.filter (label_matches a) := by
    intro rows
    apply List.filter_congr
    intro r _
    simp [label_matches, hab]
  rcases hfl : db.rows.filter (label_matches a) with _ | ⟨r, rest⟩
  · simp only [get_or_create_condition_option, ha, if_false, hfl] at h1
    by_cases hcode : db.rows.any (fun rr => rr.code == code_of a)
    · simp [hcode] at h1
    · simp only [hcode, if_false] at h1
      injection h1 with hpair
      injection hpair with hi hdb
      subst hi
      subst hdb
      simp only [get_or_create_condition_option, hb, if_false]
      have hfb : (db.rows ++ [(⟨db.next_id, code_of a, a⟩ : ConditionOption)]).filter
            (label_matches b) =
          [(⟨db.next_id, code_of a, a⟩ : ConditionOption)] := by
        rw [List.filter_append, hm, hfl]
        simp [label_matches, hab]
      rw [hfb]
  · rcases hrest : rest with _ | ⟨r2, rest2⟩
    · rw [hrest] at hfl
      simp only [get_or_create_condition_option, ha, if_false, hfl] at h1
      injection h1 with hpair
      injection hpair with hi hdb
      subst hi
      subst hdb
      simp only [get_or_create_condition_option, hb, if_false, hm, hfl]
    · rw [hrest] at hfl
      simp only [get_or_create_condition_option, ha, if_false, hfl] at h1
      exact Except.noConfusion h1

/-- C5 witness for the amended statement: after "Like New" created row 1,
the differently cased "like NEW" resolves to the same ID 1 and creates no
row. -/
theorem get_or_create_condition_case_insensitive_witness :
    get_or_create_condition_option ⟨[⟨1, "like-new", "Like New"⟩], 2⟩ "like NEW" =
      Except.ok (some 1, ⟨[⟨1, "like-new", "Like New"⟩], 2⟩) :=
  get_or_create_condition_case_insensitive ⟨[], 1⟩ "Like New" "like NEW"
    (by decide) (by decide) (by decide) (some 1) ⟨[⟨1, "like-new", "Like New"⟩], 2⟩
    rfl

/-- C5 counterexample: "Like New" and "LIKE_NEW" are not equal ignoring
case, and get_or_create_condition_option gives them two distinct canonical
IDs (1 and 2); a later "like-new" call does not return either ID but fails
on the unique code constraint. -/
theorem condition_label_variants_distinct :
    get_or_create_condition_option ⟨[], 1⟩ "Like New" =
      Except.ok (some 1, ⟨[⟨1, "like-new", "Like New"⟩], 2⟩) ∧
    get_or_create_condition_option ⟨[⟨1, "like-new", "Like New"⟩], 2⟩ "LIKE_NEW" =
      Except.ok (some 2,
        ⟨[⟨1, "like-new", "Like New"⟩, ⟨2, "like_new", "LIKE_NEW"⟩], 3⟩) ∧
    get_or_create_condition_option
        ⟨[⟨1, "like-new", "Like New"⟩, ⟨2, "like_new", "LIKE_NEW"⟩], 3⟩ "like-new" =
      Except.error DbError.integrityError :=
  ⟨rfl, rfl, rfl⟩

/-- C8: code_bug exhibit.  A 404 is recorded as removed (is_visible and
is_active false) exactly as the claim says, but check_item_status also
returns is_sold = False — its own comment says the sold state is unknown —
and verify_tracked_items writes the whole dict, so a listing previously
marked sold is flipped back to not sold. -/
theorem verify_status_404_clears_sold :
    apply_status_update ⟨true, true, true⟩ (check_item_status DetailFetchResult.notFound404) =
      ⟨false, false, false⟩ := by
  decide
